import Mathlib

/-!
Shallow embedding of the metric-computation slice of the repository:
the `column_values.string_integers.increasing` metric (pandas and Spark
backend variants), the validation step of
`ExpectColumnValuesToBeStringIntegersIncreasing`, the evaluation-dependency
rewrite, and the Spark schema flattening of `table.column_types`
(`_get_spark_column_metadata`).
-/

namespace GE

/-- Decimal digit test for a character, the character class accepted by
`str.isdigit` on the ASCII inputs this metric works over. -/
def isDigitChar (c : Char) : Bool := ('0' ≤ c) && (c ≤ '9')

/-- Embeds Python `s.isdigit()`: a nonempty string all of whose characters
are decimal digits. -/
def pyStrIsDigit (s : String) : Bool := (!s.isEmpty) && s.toList.all isDigitChar

/-- Decimal value of a digit string, the value produced by pandas
`astype(int)` and by Spark `cast(IntegerType())` on digit-only strings. -/
def decimalNat (s : String) : Nat :=
  s.toList.foldl (fun a c => 10 * a + (c.toNat - 48)) 0

/-- Decimal value of a digit string as an integer. -/
def decimalInt (s : String) : Int := Int.ofNat (decimalNat s)

/-- Embeds `np.diff` on a one-dimensional integer array: element `i` of the
result is `v[i+1] - v[i]`, and the result is one shorter than the input. -/
def npDiff (v : List Int) : List Int :=
  List.zipWith (fun a b => b - a) v (v.drop 1)

/-- Largest value of Spark `IntegerType`, a 32-bit signed integer. -/
def int32Max : Int := 2147483647

/-- Smallest value of Spark `IntegerType`. -/
def int32Min : Int := -2147483648

/-- Largest value of the int64 dtype produced by pandas `astype(int)`. -/
def int64Max : Int := 9223372036854775807

/-- Embeds the Spark engine primitive `F.col(c).cast(IntegerType())` on one
cell of the string column this metric operates over: an optionally
minus-signed digit string casts to its decimal value when that value fits
the 32-bit signed `IntegerType`, and casts to null (`none`) on overflow, as
Spark's non-ANSI cast does, as well as on any other string. -/
def sparkCastInt (s : String) : Option Int :=
  if pyStrIsDigit s then
    if decimalInt s ≤ int32Max then some (decimalInt s) else none
  else if s.toList.head? = some '-' then
    if pyStrIsDigit (String.mk s.toList.tail) then
      if int32Min ≤ -(decimalInt (String.mk s.toList.tail)) then
        some (-(decimalInt (String.mk s.toList.tail)))
      else none
    else none
  else none

/-- Value of the `strictly` entry of kwargs, as seen by Python code: the
outer `Option` is key presence, the inner `Option` is `None` versus a bool. -/
abbrev StrictlyKwarg := Option (Option Bool)

/-- Embeds `kwargs.get("strictly") or False` from
`ColumnValuesStringIntegersIncreasing._pandas`: a missing key, a `None`
value and `False` all collapse to `False`. -/
def pandasGetStrictly (kw : StrictlyKwarg) : Bool :=
  match kw with
  | some (some b) => b
  | _ => false

/-- Embeds `ColumnValuesStringIntegersIncreasing._pandas`: if every value of
the column is a digit-only string, cast to int with `astype(int)` — an
int64 cast that raises `OverflowError` when some value exceeds the int64
range — then take `np.diff` and compare each difference against `0` with
`>` when strictly else `>=`; a non-digit string raises `TypeError`. -/
def ColumnValuesStringIntegersIncreasing_pandas
    (column : List String) (kwargs : StrictlyKwarg) :
    Except String (List Bool) :=
  if column.all pyStrIsDigit then
    if column.all (fun s => decide (decimalInt s ≤ int64Max)) then
      let temp_column : List Int := column.map decimalInt
      let series_diff : List Int := npDiff temp_column
      let strictly : Bool := pandasGetStrictly kwargs
      if strictly then
        .ok (series_diff.map (fun d => decide (d > 0)))
      else
        .ok (series_diff.map (fun d => decide (d ≥ 0)))
    else
      .error "OverflowError: Python int too large to convert to C long"
  else
    .error "Column must be a string-type capable of being cast to int."

/-- Spark column data types, as far as this slice of the repository
inspects them: string, a couple of non-string leaf types, and structs
(`sparktypes.StructType`) whose fields pair a name with a type. -/
inductive SparkDataType where
  | stringType : SparkDataType
  | integerType : SparkDataType
  | doubleType : SparkDataType
  | structType : List (String × SparkDataType) → SparkDataType

/-- Recognizer for `sparktypes.StringType`, embedding the
`isinstance(column_metadata["type"], StringType)` check. -/
def SparkDataType.isStringType : SparkDataType → Bool
  | .stringType => true
  | _ => false

/-- Recognizer for `sparktypes.StructType`. -/
def SparkDataType.isStructType : SparkDataType → Bool
  | .structType _ => true
  | _ => false

/-- Embeds `ColumnValuesStringIntegersIncreasing._spark`. The inputs are the
`table.column_types` dependency result (`tableColumns`), the target column
name, the materialized column in the (single-partition) window order, with
`none` a null cell, and the `strictly` value kwarg. The steps mirror the
source: metadata lookup by name taking element `[0]`, the `StringType`
check, the cast, the null check, the lag-window difference whose null first
element becomes the sentinel `1`, the threshold at zero, and the final
`[1:]` slice dropping the artificial first element. -/
def ColumnValuesStringIntegersIncreasing_spark
    (tableColumns : List (String × SparkDataType)) (columnName : String)
    (column : List (Option String)) (strictlyKwarg : StrictlyKwarg) :
    Except String (List Bool) :=
  match (tableColumns.filter (fun c => c.1 = columnName)).head? with
  | none => .error "list index out of range"
  | some column_metadata =>
    if column_metadata.2.isStringType then
      let casted : List (Option Int) := column.map (fun o => o.bind sparkCastInt)
      if casted.any (fun o => o.isNone) then
        .error "Column must be a string-type capable of being cast to int."
      else
        match strictlyKwarg with
        | none => .error "KeyError: strictly"
        | some sv =>
          let vals : List Int := casted.filterMap id
          let diffs : List Int :=
            match vals with
            | [] => []
            | _ => 1 :: npDiff vals
          let mask : List Bool :=
            if sv = some true then
              diffs.map (fun d => decide (d > 0))
            else
              diffs.map (fun d => decide (d ≥ 0))
          .ok (mask.drop 1)
    else
      .error "Column must be a string-type capable of being cast to int."

/-- Input shape of `_get_spark_column_metadata`: the Python function is
called either on a bare `StructType` (the dataframe schema) or, recursively,
on a `StructField` pairing a name with a data type. -/
inductive SparkSchemaNode where
  | ofType (t : SparkDataType)
  | ofField (name : String) (dataType : SparkDataType)

/-- Embeds the Python membership test `"." in field.name`: whether the
string has a literal dot character. -/
def containsDot (s : String) : Bool := s.toList.any (fun c => c = '.')

mutual
/-- Embeds the `StructField` arm of `_get_spark_column_metadata`: adjust the
parent prefix (append a dot when nonempty), backtick-quote the field name
when it contains a literal dot, emit the field's own entry, and, when
`includeNested` holds and the field's type is a struct, append the flattened
children under the prefix `parent + name` (which the recursive call adjusts
with its own dot). -/
def flattenSparkField (name : String) (dataType : SparkDataType)
    (parentName : String) (includeNested : Bool) :
    List (String × SparkDataType) :=
  let p := if parentName ≠ "" then parentName ++ "." else parentName
  let n := if containsDot name then p ++ "`" ++ name ++ "`" else p ++ name
  match dataType with
  | .structType fields =>
      if includeNested then
        (n, dataType) :: flattenSparkFields fields (p ++ name) includeNested
      else [(n, dataType)]
  | _ => [(n, dataType)]

/-- Flattens a list of struct fields in order, each child processed with the
same parent prefix, concatenating the per-field results (the Python
`cols += ...` loop). -/
def flattenSparkFields (fields : List (String × SparkDataType))
    (parentName : String) (includeNested : Bool) :
    List (String × SparkDataType) :=
  match fields with
  | [] => []
  | (nm, t) :: rest =>
      flattenSparkField nm t parentName includeNested ++
        flattenSparkFields rest parentName includeNested
end

/-- Embeds `_get_spark_column_metadata`. On a bare `StructType` every child
field is flattened, the recursive call omitting `include_nested` so that it
silently resets to its default `True` (as the source does on line 120); on a
`StructField` the field arm runs with the given flag; any other node raises
`ValueError("unrecognized field type")`. -/
def getSparkColumnMetadata (field : SparkSchemaNode)
    (parentName : String := "") (includeNested : Bool := true) :
    Except String (List (String × SparkDataType)) :=
  let p := if parentName ≠ "" then parentName ++ "." else parentName
  match field with
  | .ofType (.structType fields) => .ok (flattenSparkFields fields p true)
  | .ofField name dataType =>
      .ok (flattenSparkField name dataType parentName includeNested)
  | .ofType _ => .error "unrecognized field type"

/-- Values appearing in kwargs mappings. -/
inductive KwargValue where
  | bool (b : Bool)
  | str (s : String)
  | int (n : Int)
  | null
deriving DecidableEq

/-- Embeds `MetricConfiguration`: a metric name together with ordered
domain kwargs and value kwargs. -/
structure MetricConfiguration where
  metric_name : String
  metric_domain_kwargs : List (String × KwargValue)
  metric_value_kwargs : List (String × KwargValue)
deriving DecidableEq

/-- Embeds the `table.column_types` entry added by
`ColumnValuesStringIntegersIncreasing._get_evaluation_dependencies`: the
domain kwargs are the dependent metric's domain kwargs with every
`"column"` entry filtered out, and the value kwargs are
`{"include_nested": True}`. -/
def getEvaluationDependenciesColumnTypes (metric : MetricConfiguration) :
    MetricConfiguration :=
  { metric_name := "table.column_types"
  , metric_domain_kwargs :=
      metric.metric_domain_kwargs.filter (fun kv => kv.1 ≠ "column")
  , metric_value_kwargs := [("include_nested", KwargValue.bool true)] }

/-- Embeds `np.unique(mask, return_counts=True)` on a boolean array: the
sorted distinct values present in the input (`False` before `True`) paired
with their occurrence counts. -/
def npUnique (mask : List Bool) : List Bool × List Nat :=
  let vals : List Bool :=
    (if false ∈ mask then [false] else []) ++ (if true ∈ mask then [true] else [])
  (vals, vals.map (fun v => mask.count v))

/-- Embeds `ExpectationValidationResult` as far as `_validate` fills it in. -/
structure ExpectationValidationResult where
  success : Bool
  observed_value : List Bool × List Nat

/-- Result tuple stored for the windowed map metric: the boolean mask is
component `[0]`, followed by the compute- and accessor-domain kwargs. -/
structure StringIntegersMetricResult where
  mask : List Bool
  compute_domain_kwargs : List (String × KwargValue)
  accessor_domain_kwargs : List (String × KwargValue)

/-- Embeds `ExpectColumnValuesToBeStringIntegersIncreasing._validate`:
success is `all(...)` over component `[0]` of the metric result (the full
boolean mask), and the observed value is `np.unique(..., return_counts=True)`
of that mask. -/
def ExpectColumnValuesToBeStringIntegersIncreasing_validate
    (string_integers_increasing : StringIntegersMetricResult) :
    ExpectationValidationResult :=
  { success := string_integers_increasing.mask.all (fun b => b)
  , observed_value := npUnique string_integers_increasing.mask }

/-! Helper lemmas shared by the claim theorems. -/

/-- Cast of a digit-only string whose value fits `IntegerType` succeeds
with its decimal value. -/
theorem sparkCastInt_of_digit {s : String} (h : pyStrIsDigit s = true)
    (hr : decimalInt s ≤ int32Max) :
    sparkCastInt s = some (decimalInt s) := by
  simp [sparkCastInt, h, hr]

/-- Unwrapping a list of values wrapped in `some` via `filterMap id`
recovers the mapped list. -/
theorem filterMap_id_map_some {α β : Type} (f : α → β) (l : List α) :
    (l.map (fun a => some (f a))).filterMap id = l.map f := by
  induction l with
  | nil => rfl
  | cons a t ih => simp only [List.map_cons, List.filterMap_cons, id, ih]

/-- Length of `np.diff` is one less than the input length. -/
theorem npDiff_length (l : List Int) : (npDiff l).length = l.length - 1 := by
  unfold npDiff
  rw [List.length_zipWith, List.length_drop]
  omega

/-- Element `i` of `np.diff` is the difference of input elements `i+1`
and `i`. -/
theorem npDiff_getElem? (l : List Int) (i : Nat) (a b : Int)
    (ha : l[i]? = some a) (hb : l[i + 1]? = some b) :
    (npDiff l)[i]? = some (b - a) := by
  unfold npDiff
  rw [List.getElem?_zipWith']
  rw [List.getElem?_drop, ha, Nat.add_comm 1 i, hb]
  rfl

/-! Claim theorems. -/

/-- Claim C1, counterexample to the original statement: on the digit-only,
null-free column `["1", "3000000000"]` the Spark variant's int32 cast
overflows to null and the metric raises at its null check, while the
pandas variant (int64) returns the mask `[true]`, so the two backends'
results differ. -/
theorem increasing_cross_backend_divergence_counterexample :
    ColumnValuesStringIntegersIncreasing_pandas ["1", "3000000000"]
        (some (some false)) = .ok [true]
    ∧ ColumnValuesStringIntegersIncreasing_spark [("a", SparkDataType.stringType)]
        "a" (["1", "3000000000"].map some) (some (some false))
      = .error "Column must be a string-type capable of being cast to int."
    ∧ ¬ (ColumnValuesStringIntegersIncreasing_spark
          [("a", SparkDataType.stringType)]
          "a" (["1", "3000000000"].map some) (some (some false))
        = ColumnValuesStringIntegersIncreasing_pandas ["1", "3000000000"]
          (some (some false))) :=
  ⟨by rfl, by rfl, fun h => Except.noConfusion h⟩

/-- Claim C1 as amended: for a column of digit-only strings, each of value
at most 2147483647 (so the Spark int32 cast cannot overflow to null), with
no null values, presented in the same order to both backends, the pandas
variant's boolean mask equals, element-wise, the Spark variant's mask (the
Spark variant already drops its artificial first element via the `[1:]`
slice), for both values of `strictly`. -/
theorem increasing_cross_backend_equivalence
    (tableColumns : List (String × SparkDataType)) (columnName : String)
    (col : List String) (strict : Bool)
    (hdigit : col.all pyStrIsDigit = true)
    (hrange : col.all (fun s => decide (decimalInt s ≤ int32Max)) = true)
    (hmeta : (tableColumns.filter (fun c => c.1 = columnName)).head? =
      some (columnName, SparkDataType.stringType)) :
    ColumnValuesStringIntegersIncreasing_spark tableColumns columnName
        (col.map some) (some (some strict))
      = ColumnValuesStringIntegersIncreasing_pandas col (some (some strict)) := by
  have hrange64 : col.all (fun s => decide (decimalInt s ≤ int64Max)) = true := by
    rw [List.all_eq_true]
    intro s hs
    have h32 : decimalInt s ≤ int32Max :=
      of_decide_eq_true ((List.all_eq_true.mp hrange) s hs)
    exact decide_eq_true (le_trans h32 (by norm_num [int32Max, int64Max]))
  unfold ColumnValuesStringIntegersIncreasing_spark
    ColumnValuesStringIntegersIncreasing_pandas
  rw [hmeta]
  have hcast : (col.map some).map (fun o => o.bind sparkCastInt)
      = col.map (fun s => some (decimalInt s)) := by
    rw [List.map_map]
    refine List.map_congr_left (fun s hs => ?_)
    have hd : pyStrIsDigit s = true := (List.all_eq_true.mp hdigit) s hs
    have h32 : decimalInt s ≤ int32Max :=
      of_decide_eq_true ((List.all_eq_true.mp hrange) s hs)
    simp [sparkCastInt_of_digit hd h32]
  rw [hcast, hdigit, hrange64]
  simp only [SparkDataType.isStringType, if_true]
  have hnone : (col.map (fun s => some (decimalInt s))).any (fun o => o.isNone)
      = false := by
    simp [List.any_map, Function.comp]
  rw [hnone]
  have hvals : (col.map (fun s => some (decimalInt s))).filterMap id
      = col.map decimalInt := filterMap_id_map_some decimalInt col
  simp only [Bool.false_eq_true, if_false, hvals]
  cases col with
  | nil => cases strict <;> simp [npDiff, pandasGetStrictly]
  | cons c cs => cases strict <;> simp [pandasGetStrictly, List.map_cons]

/-- Witness for C1 at the column `["0", "1", "2"]` with `strictly = true`. -/
theorem increasing_cross_backend_equivalence_witness :
    (["0", "1", "2"].all pyStrIsDigit = true)
    ∧ (["0", "1", "2"].all (fun s => decide (decimalInt s ≤ int32Max)) = true)
    ∧ (([("a", SparkDataType.stringType)].filter (fun c => c.1 = "a")).head?
        = some ("a", SparkDataType.stringType))
    ∧ ColumnValuesStringIntegersIncreasing_spark [("a", SparkDataType.stringType)]
        "a" (["0", "1", "2"].map some) (some (some true))
      = ColumnValuesStringIntegersIncreasing_pandas ["0", "1", "2"]
        (some (some true)) :=
  ⟨by rfl, by rfl, by rfl,
    increasing_cross_backend_equivalence _ _ _ _ (by rfl) (by rfl) (by rfl)⟩

/-- Claim C2, counterexample to the original statement: a digit string
beyond the int64 range makes `astype(int)` raise `OverflowError`, so on
`["1", "99999999999999999999999999"]` the pandas variant returns no mask
at all instead of a mask of length `n - 1`. -/
theorem pandas_increasing_overflow_counterexample :
    ColumnValuesStringIntegersIncreasing_pandas
        ["1", "99999999999999999999999999"] (some (some false))
      = .error "OverflowError: Python int too large to convert to C long"
    ∧ ¬ ∃ mask, ColumnValuesStringIntegersIncreasing_pandas
        ["1", "99999999999999999999999999"] (some (some false)) = .ok mask :=
  ⟨by rfl, fun ⟨_, h⟩ => Except.noConfusion h⟩

/-- Claim C2 as amended: for a column of `n` digit-only strings, each of
value within the int64 range of `astype(int)`, the pandas variant returns
a mask of length `n - 1` whose element `i` compares
`int(v[i+1]) - int(v[i])` against zero with `>` when strictly else `>=`;
on `["0","1","2","3","3","9","11"]` the mask is all-true with
`strictly = false` and contains a false element with `strictly = true`. -/
theorem pandas_increasing_mask_spec
    (col : List String) (strict : Bool)
    (hdigit : col.all pyStrIsDigit = true)
    (hrange : col.all (fun s => decide (decimalInt s ≤ int64Max)) = true) :
    (∃ mask, ColumnValuesStringIntegersIncreasing_pandas col (some (some strict))
        = .ok mask
      ∧ mask.length = col.length - 1
      ∧ ∀ i a b, col[i]? = some a → col[i + 1]? = some b →
          mask[i]? = some (if strict then decide (decimalInt b - decimalInt a > 0)
                            else decide (decimalInt b - decimalInt a ≥ 0)))
    ∧ ColumnValuesStringIntegersIncreasing_pandas
        ["0", "1", "2", "3", "3", "9", "11"] (some (some false))
        = .ok [true, true, true, true, true, true]
    ∧ (∃ m, ColumnValuesStringIntegersIncreasing_pandas
        ["0", "1", "2", "3", "3", "9", "11"] (some (some true))
        = .ok m ∧ false ∈ m) := by
  refine ⟨?_, by rfl, ⟨[true, true, true, false, true, true], by rfl, by decide⟩⟩
  unfold ColumnValuesStringIntegersIncreasing_pandas
  rw [hdigit, hrange]
  cases strict with
  | false =>
    refine ⟨(npDiff (col.map decimalInt)).map (fun d => decide (d ≥ 0)),
      by rfl, ?_, ?_⟩
    · simp [npDiff_length]
    · intro i a b ha hb
      rw [List.getElem?_map,
        npDiff_getElem? (col.map decimalInt) i (decimalInt a) (decimalInt b)
          (by rw [List.getElem?_map, ha]; rfl)
          (by rw [List.getElem?_map, hb]; rfl)]
      rfl
  | true =>
    refine ⟨(npDiff (col.map decimalInt)).map (fun d => decide (d > 0)),
      by rfl, ?_, ?_⟩
    · simp [npDiff_length]
    · intro i a b ha hb
      rw [List.getElem?_map,
        npDiff_getElem? (col.map decimalInt) i (decimalInt a) (decimalInt b)
          (by rw [List.getElem?_map, ha]; rfl)
          (by rw [List.getElem?_map, hb]; rfl)]
      rfl

/-- Witness for C2 at the column `["5", "5", "7"]` with `strictly = false`. -/
theorem pandas_increasing_mask_spec_witness :
    (["5", "5", "7"].all pyStrIsDigit = true)
    ∧ (["5", "5", "7"].all (fun s => decide (decimalInt s ≤ int64Max)) = true)
    ∧ (∃ mask, ColumnValuesStringIntegersIncreasing_pandas ["5", "5", "7"]
          (some (some false)) = .ok mask
        ∧ mask.length = ["5", "5", "7"].length - 1
        ∧ ∀ i a b, ["5", "5", "7"][i]? = some a → ["5", "5", "7"][i + 1]? = some b →
            mask[i]? = some (if false then decide (decimalInt b - decimalInt a > 0)
                              else decide (decimalInt b - decimalInt a ≥ 0))) :=
  ⟨by rfl, by rfl,
    (pandas_increasing_mask_spec ["5", "5", "7"] false (by rfl) (by rfl)).1⟩

/-- Claim C3: a column containing any non-digit string makes the pandas
variant of the increasing metric raise its `TypeError` and return no mask
at all, for every value of the strictly kwarg. -/
theorem pandas_increasing_type_error
    (col : List String) (kwargs : StrictlyKwarg) (s : String)
    (hs : s ∈ col) (hnd : pyStrIsDigit s = false) :
    ColumnValuesStringIntegersIncreasing_pandas col kwargs
      = .error "Column must be a string-type capable of being cast to int." := by
  have hall : col.all pyStrIsDigit = false := by
    cases hcase : col.all pyStrIsDigit with
    | false => rfl
    | true =>
      have := List.all_eq_true.mp hcase s hs
      rw [hnd] at this
      exact absurd this (by simp)
  unfold ColumnValuesStringIntegersIncreasing_pandas
  simp [hall]

/-- Witness for C3 at the column `["0", "1", "2x", "3"]`. -/
theorem pandas_increasing_type_error_witness :
    ("2x" ∈ ["0", "1", "2x", "3"])
    ∧ (pyStrIsDigit "2x" = false)
    ∧ ColumnValuesStringIntegersIncreasing_pandas ["0", "1", "2x", "3"] none
      = .error "Column must be a string-type capable of being cast to int." :=
  ⟨by decide, by rfl,
    pandas_increasing_type_error ["0", "1", "2x", "3"] none "2x" (by decide) (by rfl)⟩

/-- Claim C4: the validation step succeeds exactly when every element of
the stored boolean mask (component `[0]` of the metric result) is true, so
an empty mask is vacuously successful, and its observed value is the
distinct-values-with-counts summary of the mask, never the raw mask: at
most two distinct entries, without duplicates, exactly the values present
in the mask, each paired with its occurrence count. -/
theorem validate_verdict_spec (r : StringIntegersMetricResult) :
    ((ExpectColumnValuesToBeStringIntegersIncreasing_validate r).success = true
      ↔ ∀ b ∈ r.mask, b = true)
    ∧ (ExpectColumnValuesToBeStringIntegersIncreasing_validate
        ⟨[], [], []⟩).success = true
    ∧ (ExpectColumnValuesToBeStringIntegersIncreasing_validate
        r).observed_value.1.length ≤ 2
    ∧ (ExpectColumnValuesToBeStringIntegersIncreasing_validate
        r).observed_value.1.Nodup
    ∧ (∀ b, b ∈ (ExpectColumnValuesToBeStringIntegersIncreasing_validate
        r).observed_value.1 ↔ b ∈ r.mask)
    ∧ (ExpectColumnValuesToBeStringIntegersIncreasing_validate r).observed_value.2
      = (ExpectColumnValuesToBeStringIntegersIncreasing_validate
          r).observed_value.1.map (fun v => r.mask.count v) := by
  refine ⟨?_, by rfl, ?_, ?_, ?_, by rfl⟩
  · simp [ExpectColumnValuesToBeStringIntegersIncreasing_validate, List.all_eq_true]
  · by_cases hf : false ∈ r.mask <;> by_cases ht : true ∈ r.mask <;>
      simp [ExpectColumnValuesToBeStringIntegersIncreasing_validate, npUnique, hf, ht]
  · by_cases hf : false ∈ r.mask <;> by_cases ht : true ∈ r.mask <;>
      simp [ExpectColumnValuesToBeStringIntegersIncreasing_validate, npUnique, hf, ht]
  · intro b
    by_cases hf : false ∈ r.mask <;> by_cases ht : true ∈ r.mask <;>
      cases b <;>
      simp [ExpectColumnValuesToBeStringIntegersIncreasing_validate, npUnique, hf, ht]

/-- Witness for C4 at the mask `[true, false, true]`. -/
theorem validate_verdict_spec_witness :
    ¬ ((ExpectColumnValuesToBeStringIntegersIncreasing_validate
        ⟨[true, false, true], [], []⟩).success = true) :=
  fun h =>
    absurd ((validate_verdict_spec ⟨[true, false, true], [], []⟩).1.mp h false
        (by decide))
      (by decide)

/-- Claim C5: the `table.column_types` dependency declared by the
increasing metric keeps every domain-kwargs entry of the dependent metric
except exactly the `"column"` key (order preserved, nothing else dropped or
changed), and carries value kwargs `{"include_nested": True}`. -/
theorem evaluation_dependencies_column_types_rewrite
    (metric : MetricConfiguration) :
    (getEvaluationDependenciesColumnTypes metric).metric_name
      = "table.column_types"
    ∧ (∀ k v, (k, v) ∈ (getEvaluationDependenciesColumnTypes
          metric).metric_domain_kwargs
        ↔ ((k, v) ∈ metric.metric_domain_kwargs ∧ k ≠ "column"))
    ∧ (getEvaluationDependenciesColumnTypes metric).metric_domain_kwargs.Sublist
        metric.metric_domain_kwargs
    ∧ (getEvaluationDependenciesColumnTypes metric).metric_value_kwargs
      = [("include_nested", KwargValue.bool true)] := by
  refine ⟨rfl, ?_, List.filter_sublist _, rfl⟩
  intro k v
  simp [getEvaluationDependenciesColumnTypes, List.mem_filter]

/-- Witness for C5 at a configuration with a row filter and a column key. -/
theorem evaluation_dependencies_column_types_rewrite_witness :
    (("row_condition", KwargValue.str "x>0") ∈
      (getEvaluationDependenciesColumnTypes
        ⟨"column_values.string_integers.increasing.map",
          [("batch_id", KwargValue.str "b1"), ("column", KwargValue.str "a"),
            ("row_condition", KwargValue.str "x>0")],
          [("strictly", KwargValue.bool true)]⟩).metric_domain_kwargs)
    ∧ ¬ (("column", KwargValue.str "a") ∈
      (getEvaluationDependenciesColumnTypes
        ⟨"column_values.string_integers.increasing.map",
          [("batch_id", KwargValue.str "b1"), ("column", KwargValue.str "a"),
            ("row_condition", KwargValue.str "x>0")],
          [("strictly", KwargValue.bool true)]⟩).metric_domain_kwargs) :=
  ⟨((evaluation_dependencies_column_types_rewrite _).2.1 "row_condition"
      (KwargValue.str "x>0")).mpr ⟨by decide, by decide⟩,
    fun h =>
      absurd (((evaluation_dependencies_column_types_rewrite _).2.1 "column"
        (KwargValue.str "a")).mp h).2 (by decide)⟩

/-- Claim C8: the Spark variant of the increasing metric raises a fatal
error, before producing any mask, whenever some value of the column is
null after the string-to-integer cast (an absent cell or an uncastable
string), for every strictly kwarg. -/
theorem spark_increasing_null_fatal
    (tableColumns : List (String × SparkDataType)) (columnName : String)
    (column : List (Option String)) (kwargs : StrictlyKwarg)
    (hmeta : (tableColumns.filter (fun c => c.1 = columnName)).head?
        = some (columnName, SparkDataType.stringType))
    (hnull : (column.map (fun o => o.bind sparkCastInt)).any (fun o => o.isNone)
        = true) :
    ColumnValuesStringIntegersIncreasing_spark tableColumns columnName column
        kwargs
      = .error "Column must be a string-type capable of being cast to int." := by
  unfold ColumnValuesStringIntegersIncreasing_spark
  rw [hmeta]
  simp [SparkDataType.isStringType, hnull]

/-- Witness for C8 at a column with a null cell. -/
theorem spark_increasing_null_fatal_witness :
    (([("a", SparkDataType.stringType)].filter (fun c => c.1 = "a")).head?
      = some ("a", SparkDataType.stringType))
    ∧ (([some "1", none].map (fun o => o.bind sparkCastInt)).any
        (fun o => o.isNone) = true)
    ∧ ColumnValuesStringIntegersIncreasing_spark [("a", SparkDataType.stringType)]
        "a" [some "1", none] (some (some true))
      = .error "Column must be a string-type capable of being cast to int." :=
  ⟨by rfl, by rfl,
    spark_increasing_null_fatal _ _ _ _ (by rfl) (by rfl)⟩

/-- Claim C10: with the strictly kwarg missing or `None`, the pandas
variant behaves exactly like `strictly = false`, while the Spark variant
insists on the key being present: with the key absent it fails with a
missing-key error (after its earlier metadata and null checks pass). -/
theorem strictly_default_asymmetry
    (col : List String)
    (tableColumns : List (String × SparkDataType)) (columnName : String)
    (column : List (Option String))
    (hmeta : (tableColumns.filter (fun c => c.1 = columnName)).head?
        = some (columnName, SparkDataType.stringType))
    (hnonull : (column.map (fun o => o.bind sparkCastInt)).any (fun o => o.isNone)
        = false) :
    (ColumnValuesStringIntegersIncreasing_pandas col none
      = ColumnValuesStringIntegersIncreasing_pandas col (some (some false)))
    ∧ (ColumnValuesStringIntegersIncreasing_pandas col (some none)
      = ColumnValuesStringIntegersIncreasing_pandas col (some (some false)))
    ∧ ColumnValuesStringIntegersIncreasing_spark tableColumns columnName column
        none
      = .error "KeyError: strictly" := by
  refine ⟨rfl, rfl, ?_⟩
  unfold ColumnValuesStringIntegersIncreasing_spark
  rw [hmeta]
  simp [SparkDataType.isStringType, hnonull]

/-- Witness for C10 at a two-row column. -/
theorem strictly_default_asymmetry_witness :
    (ColumnValuesStringIntegersIncreasing_pandas ["1", "2"] none
      = ColumnValuesStringIntegersIncreasing_pandas ["1", "2"] (some (some false)))
    ∧ ColumnValuesStringIntegersIncreasing_spark [("a", SparkDataType.stringType)]
        "a" [some "1", some "2"] none
      = .error "KeyError: strictly" :=
  ⟨(strictly_default_asymmetry ["1", "2"] [("a", SparkDataType.stringType)] "a"
      [some "1", some "2"] (by rfl) (by rfl)).1,
    (strictly_default_asymmetry ["1", "2"] [("a", SparkDataType.stringType)] "a"
      [some "1", some "2"] (by rfl) (by rfl)).2.2⟩

/-- Flattening one struct field always emits at least the field's own
entry. -/
theorem flattenSparkField_length_pos (name : String) (dt : SparkDataType)
    (p : String) (inc : Bool) : 1 ≤ (flattenSparkField name dt p inc).length := by
  cases dt <;> cases inc <;> simp [flattenSparkField]

/-- Flattening a field list yields at least one entry per field. -/
theorem flattenSparkFields_length_le (fields : List (String × SparkDataType))
    (p : String) (inc : Bool) :
    fields.length ≤ (flattenSparkFields fields p inc).length := by
  induction fields with
  | nil => simp [flattenSparkFields]
  | cons f rest ih =>
    obtain ⟨nm, t⟩ := f
    rw [flattenSparkFields, List.length_append, List.length_cons]
    have h1 := flattenSparkField_length_pos nm t p inc
    omega

/-- Claim C6: with `include_nested = true`, flattening a schema holding a
struct field `outer` with leaf child `inner` yields entries for both
`outer` (struct type) and `outer.inner` (leaf type); a nested field's name
is the parent names joined with dots, and a field whose own name contains a
literal dot is backtick-quoted after its parent prefix. -/
theorem spark_schema_flatten_nested_struct :
    (getSparkColumnMetadata
        (.ofType (.structType [("outer", .structType [("inner", .integerType)])]))
        "" true
      = .ok [("outer", SparkDataType.structType
                [("inner", SparkDataType.integerType)]),
             ("outer.inner", SparkDataType.integerType)])
    ∧ ∀ (p name : String) (dt : SparkDataType) (inc : Bool),
        p ≠ "" → containsDot name = true →
        (flattenSparkField name dt p inc).head?
          = some (p ++ "." ++ "`" ++ name ++ "`", dt) := by
  constructor
  · simp [getSparkColumnMetadata, flattenSparkFields, flattenSparkField,
      containsDot]
  · intro p name dt inc hp hdot
    cases dt <;> cases inc <;> simp [flattenSparkField, hp, hdot]

/-- Witness for C6 at the parent `x` and dotted field name `a.b`. -/
theorem spark_schema_flatten_nested_struct_witness :
    ("x" ≠ "") ∧ (containsDot "a.b" = true)
    ∧ (flattenSparkField "a.b" SparkDataType.integerType "x" true).head?
      = some ("x" ++ "." ++ "`" ++ "a.b" ++ "`", SparkDataType.integerType) :=
  ⟨by decide, by rfl,
    spark_schema_flatten_nested_struct.2 "x" "a.b" SparkDataType.integerType true
      (by decide) (by rfl)⟩

/-- Claim C7, code behavior at the failing input: flattening the schema
`{outer: {inner: int}}` with `include_nested = false` still returns the
nested `outer.inner` entry, because the struct-container branch of
`_get_spark_column_metadata` recurses without forwarding `include_nested`,
which therefore resets to its default `True`. -/
theorem spark_schema_flatten_ignores_include_nested :
    getSparkColumnMetadata
        (.ofType (.structType [("outer", .structType [("inner", .integerType)])]))
        "" false
      = .ok [("outer", SparkDataType.structType
                [("inner", SparkDataType.integerType)]),
             ("outer.inner", SparkDataType.integerType)] := by
  simp [getSparkColumnMetadata, flattenSparkFields, flattenSparkField,
    containsDot]

/-- Claim C9: a schema node that is neither a struct container nor a field
makes `_get_spark_column_metadata` raise its `ValueError` and return
nothing, while a struct container always succeeds with at least one entry
per field (no field is silently omitted). -/
theorem spark_schema_flatten_unrecognized_error
    (t : SparkDataType) (p : String) (inc : Bool)
    (hshape : t.isStructType = false) :
    (∃ e, getSparkColumnMetadata (.ofType t) p inc = .error e)
    ∧ ∀ (fields : List (String × SparkDataType)),
        ∃ l, getSparkColumnMetadata (.ofType (.structType fields)) p inc = .ok l
          ∧ fields.length ≤ l.length := by
  constructor
  · cases t with
    | structType fs => simp [SparkDataType.isStructType] at hshape
    | stringType => exact ⟨_, rfl⟩
    | integerType => exact ⟨_, rfl⟩
    | doubleType => exact ⟨_, rfl⟩
  · intro fields
    exact ⟨flattenSparkFields fields (if p ≠ "" then p ++ "." else p) true, rfl,
      flattenSparkFields_length_le _ _ _⟩

/-- Witness for C9 at the leaf node `integerType`. -/
theorem spark_schema_flatten_unrecognized_error_witness :
    (SparkDataType.integerType.isStructType = false)
    ∧ (∃ e, getSparkColumnMetadata (.ofType SparkDataType.integerType) "" true
        = .error e) :=
  ⟨by rfl,
    (spark_schema_flatten_unrecognized_error SparkDataType.integerType "" true
      (by rfl)).1⟩

end GE
